import Mathlib

/-!
Shallow embedding of the bank-accounts service (src/account.py and src/app.py)
and verification of its specification.

Modelling conventions:
* Python monetary values (floats in the source) are embedded as exact rationals
  (ℚ); the source converts validated `Decimal` amounts with `float(d)` before
  handing them to the domain layer, and we model that conversion as the exact
  numeric value.
* Python `decimal.Decimal` values produced by `Decimal(str(amount))` are
  embedded by their `as_tuple()` representation: a sign, a mantissa (the digit
  tuple read as a natural number) and an exponent, plus the special values NaN
  and ±Infinity, which `Decimal` parses successfully from strings such as
  "NaN" and "Infinity".
* Python's `decimal` semantics that the handlers rely on are modelled by the
  functions in the `Decimal` namespace below: an ordered comparison (`<`)
  against a NaN signals `InvalidOperation` (modelled as `none`); `==` against
  a NaN is simply `False`; `as_tuple().exponent` is an `Int` for finite values
  but the *string* 'n' / 'F' for NaN / Infinity, so comparing it with `-2`
  raises `TypeError` (modelled as `none`).
* The `AccountManager` singleton's `accounts` dict is embedded as an
  association list with Python-dict insertion semantics (overwrite in place,
  append at the end when the key is new).
* `random.randint(1000, 9999)` is embedded by passing the drawn number `r`
  explicitly; the library guarantees `1000 ≤ r ≤ 9999`.
* An exception escaping a handler is the `Response.raised` outcome; Flask
  would turn it into a 500, not a 4xx from the error taxonomy.
-/

namespace Bank

/-! ## account.py -/

/-- An account record: `Account.account_number` and `Account.balance`
(src/account.py lines 13-32). -/
structure Account where
  account_number : String
  balance : ℚ
deriving DecidableEq, Repr

/-- `Account.__init__` (src/account.py line 31):
`self.account_number = str(account_number) if account_number else str(random.randint(1000, 9999))`.
Python truthiness: both `None` and the empty string take the random branch.
The random draw `r` is passed explicitly. -/
def Account.init (account_number : Option String) (r : ℕ) (balance : ℚ) : Account :=
  { account_number :=
      match account_number with
      | some s => if s = "" then toString r else s
      | none => toString r
    balance := balance }

/-- `Account.get_balance` (src/account.py lines 34-41). -/
def Account.get_balance (a : Account) : ℚ := a.balance

/-- `Account.deposit` (src/account.py lines 43-51): adds `amount` if positive,
otherwise does nothing. -/
def Account.deposit (a : Account) (amount : ℚ) : Account :=
  if amount > 0 then { a with balance := a.balance + amount } else a

/-- `Account.withdraw` (src/account.py lines 53-66): if `0 < amount ≤ balance`,
subtracts and returns `True`; otherwise returns `False` without mutating. -/
def Account.withdraw (a : Account) (amount : ℚ) : Bool × Account :=
  if 0 < amount ∧ amount ≤ a.balance then
    (true, { a with balance := a.balance - amount })
  else
    (false, a)

/-- The `AccountManager.accounts` dict: an association list from account
numbers to accounts, in Python dict insertion order. -/
abbrev Store := List (String × Account)

/-- Python `dict.__setitem__`: overwrite in place when the key exists,
append otherwise. -/
def dictInsert (store : Store) (k : String) (v : Account) : Store :=
  if store.any (fun p => p.1 = k) then
    store.map (fun p => if p.1 = k then (k, v) else p)
  else
    store ++ [(k, v)]

namespace AccountManager

/-- `AccountManager.create_account` (src/account.py lines 91-103): builds
`Account(balance=balance)` (id auto-generated from the draw `r`), stores it
under `str(account.account_number)` and returns it. -/
def create_account (store : Store) (r : ℕ) (balance : ℚ) : Account × Store :=
  let account := Account.init none r balance
  (account, dictInsert store account.account_number account)

/-- `AccountManager.get_account` (src/account.py lines 105-115):
`self.accounts.get(str(account_number))`. -/
def get_account (store : Store) (account_number : String) : Option Account :=
  (store.find? (fun p => p.1 = account_number)).map Prod.snd

end AccountManager

/-! ## Decimal values (`decimal.Decimal`) -/

/-- A `Decimal` value as produced by `Decimal(str(amount))`, represented by
its `as_tuple()`: sign (`true` = negative), mantissa (digit tuple read as a
natural number) and exponent — plus the special values NaN and ±Infinity,
which `Decimal` parses from strings such as "NaN" and "Infinity". -/
inductive DecVal where
  | finite (sign : Bool) (mantissa : ℕ) (exponent : ℤ)
  | nan
  | inf (sign : Bool)
deriving DecidableEq, Repr

/-- Numeric value of a finite decimal: `±mantissa · 10^exponent`. -/
def finVal (sign : Bool) (mantissa : ℕ) (exponent : ℤ) : ℚ :=
  (if sign then -(mantissa : ℚ) else (mantissa : ℚ)) * (10 : ℚ) ^ exponent

/-- `float(d)` for the finite decimals that reach the domain layer (NaN and
Infinity never do: validation raises on them first). -/
def DecVal.val : DecVal → ℚ
  | .finite s m e => finVal s m e
  | _ => 0

namespace Decimal

/-- `d < 0`: value comparison for finite values and infinities; an ordered
comparison against a NaN signals `InvalidOperation` (`none`). -/
def ltZero : DecVal → Option Bool
  | .finite s m e => some (decide (finVal s m e < 0))
  | .inf s => some s
  | .nan => none

/-- `d == 0`: value equality; equality against a NaN is `False` (no signal). -/
def eqZero : DecVal → Bool
  | .finite s m e => decide (finVal s m e = 0)
  | .inf _ => false
  | .nan => false

/-- `d.as_tuple().exponent` compared against an `int`: an `Int` for finite
values; for NaN / Infinity the exponent field is the string 'n' / 'F', so the
comparison `exponent < -2` raises `TypeError` (`none`). -/
def exponent : DecVal → Option ℤ
  | .finite _ _ e => some e
  | .nan => none
  | .inf _ => none

/-- `d > MAX_AMOUNT` where `MAX_AMOUNT` is finite: value comparison for finite
values and infinities; against a NaN it would signal `InvalidOperation`. -/
def gtMax (max : ℚ) : DecVal → Option Bool
  | .finite s m e => some (decide (max < finVal s m e))
  | .inf s => some (!s)
  | .nan => none

end Decimal

/-! ## app.py -/

/-- `MAX_AMOUNT = Decimal('99999999')` (src/app.py line 26). -/
def MAX_AMOUNT : ℚ := 99999999

/-- The error taxonomy of the API layer (src/app.py). -/
inductive ApiError where
  | accountNotFound
  | malformedRequest
  | missingAmount
  | invalidAmountFormat
  | negativeAmount
  | zeroAmount
  | tooManyDecimalPlaces
  | amountTooLarge
  | insufficientFunds
deriving DecidableEq, Repr

/-- HTTP status code attached to each taxonomy error by the handlers. -/
def httpStatus : ApiError → ℕ
  | .accountNotFound => 404
  | _ => 400

/-- Exceptions that can escape a handler (Flask reports them as 500). -/
inductive PyExn where
  | invalidOperation
  | typeError
deriving DecidableEq, Repr

/-- Outcome of one request handler. -/
inductive Response where
  | ok (balance : ℚ)
  | created (account_number : String) (balance : ℚ)
  | err (e : ApiError)
  | raised (exn : PyExn)
deriving DecidableEq, Repr

/-- Outcome of `Decimal(str(amount))` on the request's amount field. -/
inductive ParseOutcome where
  | ok (d : DecVal)
  | invalidOp
deriving DecidableEq, Repr

/-- Body of a deposit / withdraw request: `request.get_json()` returned `None`
(`noJson`), or a JSON object whose `amount` field is absent (`obj none`) or
present with the given `Decimal(str(amount))` outcome. -/
inductive ReqBody where
  | noJson
  | obj (amount : Option ParseOutcome)
deriving DecidableEq, Repr

/-- Body of a create-account request: `request.get_json()` returned `None`,
or a JSON object whose `balance` field is absent or a number. -/
inductive CreateBody where
  | noJson
  | obj (balance : Option ℚ)
deriving DecidableEq, Repr

/-- Python in-place mutation of the account object held by the dict: replace
the value stored under key `k`. -/
def storeUpdate (store : Store) (k : String) (a : Account) : Store :=
  store.map (fun p => if p.1 = k then (k, a) else p)

namespace App

/-- `POST /accounts` (src/app.py lines 28-42): reject a missing/invalid JSON
payload, else `balance = data.get("balance", 0.0)`, create the account and
answer 201 with its number and balance. No validation of the balance. -/
def create_account (store : Store) (body : CreateBody) (r : ℕ) : Response × Store :=
  match body with
  | .noJson => (.err .malformedRequest, store)
  | .obj balanceField =>
    let balance := balanceField.getD 0
    let (account, store') := AccountManager.create_account store r balance
    (.created account.account_number account.balance, store')

/-- `POST /accounts/<account_number>/deposit` (src/app.py lines 57-95),
line by line: account lookup, JSON payload check, `amount` presence,
`Decimal(str(amount))`, `d < 0`, `d == 0`, `d.as_tuple().exponent < -2`,
`d > MAX_AMOUNT`, then `account.deposit(float(d))`. -/
def deposit (store : Store) (account_number : String) (body : ReqBody) :
    Response × Store :=
  match AccountManager.get_account store account_number with
  | none => (.err .accountNotFound, store)
  | some account =>
    match body with
    | .noJson => (.err .malformedRequest, store)
    | .obj none => (.err .missingAmount, store)
    | .obj (some .invalidOp) => (.err .invalidAmountFormat, store)
    | .obj (some (.ok d)) =>
      match Decimal.ltZero d with
      | none => (.raised .invalidOperation, store)
      | some true => (.err .negativeAmount, store)
      | some false =>
        if Decimal.eqZero d then (.err .zeroAmount, store)
        else
          match Decimal.exponent d with
          | none => (.raised .typeError, store)
          | some e =>
            if e < -2 then (.err .tooManyDecimalPlaces, store)
            else
              match Decimal.gtMax MAX_AMOUNT d with
              | none => (.raised .invalidOperation, store)
              | some true => (.err .amountTooLarge, store)
              | some false =>
                let account' := Account.deposit account d.val
                (.ok account'.get_balance, storeUpdate store account_number account')

/-- `POST /accounts/<account_number>/withdraw` (src/app.py lines 97-136):
identical validation pipeline, then `account.withdraw(float(d))`; a `False`
result is reported as "Insufficient balance" with the store untouched. -/
def withdraw (store : Store) (account_number : String) (body : ReqBody) :
    Response × Store :=
  match AccountManager.get_account store account_number with
  | none => (.err .accountNotFound, store)
  | some account =>
    match body with
    | .noJson => (.err .malformedRequest, store)
    | .obj none => (.err .missingAmount, store)
    | .obj (some .invalidOp) => (.err .invalidAmountFormat, store)
    | .obj (some (.ok d)) =>
      match Decimal.ltZero d with
      | none => (.raised .invalidOperation, store)
      | some true => (.err .negativeAmount, store)
      | some false =>
        if Decimal.eqZero d then (.err .zeroAmount, store)
        else
          match Decimal.exponent d with
          | none => (.raised .typeError, store)
          | some e =>
            if e < -2 then (.err .tooManyDecimalPlaces, store)
            else
              match Decimal.gtMax MAX_AMOUNT d with
              | none => (.raised .invalidOperation, store)
              | some true => (.err .amountTooLarge, store)
              | some false =>
                match Account.withdraw account d.val with
                | (true, account') =>
                  (.ok account'.get_balance, storeUpdate store account_number account')
                | (false, _) => (.err .insufficientFunds, store)

end App

/-! ## Specification-side definitions -/

/-- Written from the spec's words (§4.3, checks 1-8, first failure wins):
the error the validation contract assigns to a deposit / withdraw request,
or `none` when every check passes. Check 4 ("parseable as an exact decimal
number") fails for NaN and Infinity, which are not decimal numbers. -/
def specFirstError (store : Store) (account_number : String) (body : ReqBody) :
    Option ApiError :=
  if (AccountManager.get_account store account_number).isNone then
    some .accountNotFound
  else
    match body with
    | .noJson => some .malformedRequest
    | .obj none => some .missingAmount
    | .obj (some .invalidOp) => some .invalidAmountFormat
    | .obj (some (.ok .nan)) => some .invalidAmountFormat
    | .obj (some (.ok (.inf _))) => some .invalidAmountFormat
    | .obj (some (.ok (.finite s m e))) =>
      if finVal s m e < 0 then some .negativeAmount
      else if finVal s m e = 0 then some .zeroAmount
      else if e < -2 then some .tooManyDecimalPlaces
      else if MAX_AMOUNT < finVal s m e then some .amountTooLarge
      else none

/-- The request's amount field, when present and parseable, parsed to a
finite decimal (excludes the NaN / Infinity payloads on which the handlers
raise). -/
def ReqBody.finiteOrUnparseable : ReqBody → Prop
  | .obj (some (.ok d)) =>
      match d with
      | .finite _ _ _ => True
      | _ => False
  | _ => True

instance : DecidablePred ReqBody.finiteOrUnparseable := by
  intro body
  unfold ReqBody.finiteOrUnparseable
  rcases body with _ | amount
  · exact inferInstanceAs (Decidable True)
  · rcases amount with _ | outcome
    · exact inferInstanceAs (Decidable True)
    · rcases outcome with d | _
      · rcases d with _ | _ | _
        · exact inferInstanceAs (Decidable True)
        · exact inferInstanceAs (Decidable False)
        · exact inferInstanceAs (Decidable False)
      · exact inferInstanceAs (Decidable True)

/-- Every account reachable from the store has a non-negative balance. -/
def StoreNonneg (store : Store) : Prop := ∀ p ∈ store, 0 ≤ p.2.balance

/-- Every account reachable from the store has an id equal to its key. -/
def StoreInv (store : Store) : Prop := ∀ p ∈ store, p.2.account_number = p.1

/-- A handler outcome that the spec's error contract allows: success, or a
taxonomy error carried by a 4xx status. -/
def Response.ok4xx (r : Response) : Prop :=
  (∃ b, r = Response.ok b) ∨
    (∃ e, r = Response.err e ∧ 400 ≤ httpStatus e ∧ httpStatus e < 500)

end Bank


namespace Bank

/-! ## Helper lemmas -/

lemma find?_key_of_mem_key {k : String} {v : Account} :
    ∀ m : Store, (∃ p ∈ m, p.1 = k) →
      (m.map (fun p => if p.1 = k then (k, v) else p)).find?
        (fun p => p.1 = k) = some (k, v) := by
  intro m
  induction m with
  | nil => simp
  | cons q t ih =>
    intro h
    by_cases hq : q.1 = k
    · rw [List.map_cons, if_pos hq]
      exact List.find?_cons_of_pos _ (by simp)
    · rw [List.map_cons, if_neg hq, List.find?_cons_of_neg _ (by simpa using hq)]
      rcases h with ⟨p, hp, hpk⟩
      rcases List.mem_cons.mp hp with rfl | hpt
      · exact absurd hpk hq
      · exact ih ⟨p, hpt, hpk⟩

lemma find?_concat_self {k : String} {v : Account} :
    ∀ m : Store, (∀ p ∈ m, p.1 ≠ k) →
      (m ++ [(k, v)]).find? (fun p => p.1 = k) = some (k, v) := by
  intro m
  induction m with
  | nil => exact fun _ => List.find?_cons_of_pos _ (by simp)
  | cons q t ih =>
    intro h
    have hq : q.1 ≠ k := h q (List.mem_cons_self q t)
    rw [List.cons_append, List.find?_cons_of_neg _ (by simpa using hq)]
    exact ih (fun p hp => h p (List.mem_cons_of_mem q hp))

lemma get_account_mem {m : Store} {k : String} {a : Account}
    (h : AccountManager.get_account m k = some a) : (k, a) ∈ m := by
  unfold AccountManager.get_account at h
  rcases Option.map_eq_some'.mp h with ⟨p, hp, hpa⟩
  obtain ⟨k', a'⟩ := p
  have hmem := List.mem_of_find?_eq_some hp
  have hkey : k' = k := by simpa using List.find?_some hp
  simp only at hpa
  rw [hkey, hpa] at hmem
  exact hmem

lemma get_account_dictInsert (m : Store) (k : String) (v : Account) :
    AccountManager.get_account (dictInsert m k v) k = some v := by
  unfold AccountManager.get_account dictInsert
  cases hany : m.any (fun p => p.1 = k) with
  | true =>
    have hex : ∃ p ∈ m, p.1 = k := by simpa using List.any_eq_true.mp hany
    simp only [hany, if_true]
    rw [find?_key_of_mem_key m hex]
    rfl
  | false =>
    have hall : ∀ p ∈ m, p.1 ≠ k := by simpa using List.any_eq_false.mp hany
    simp only [hany, Bool.false_eq_true, if_false]
    rw [find?_concat_self m hall]
    rfl

lemma StoreNonneg.update {m : Store} {k : String} {a : Account}
    (h : StoreNonneg m) (ha : 0 ≤ a.balance) : StoreNonneg (storeUpdate m k a) := by
  intro p hp
  rcases List.mem_map.mp hp with ⟨q, hq, rfl⟩
  by_cases hqk : q.1 = k
  · simp [hqk, ha]
  · simpa [hqk] using h q hq

lemma storeNonneg_dictInsert {m : Store} {k : String} {a : Account}
    (h : StoreNonneg m) (ha : 0 ≤ a.balance) : StoreNonneg (dictInsert m k a) := by
  intro p hp
  unfold dictInsert at hp
  cases hany : m.any (fun p => p.1 = k) with
  | true =>
    rw [hany, if_pos rfl] at hp
    rcases List.mem_map.mp hp with ⟨q, hq, rfl⟩
    by_cases hqk : q.1 = k
    · simp [hqk, ha]
    · simpa [hqk] using h q hq
  | false =>
    rw [hany] at hp
    simp only [Bool.false_eq_true, if_false] at hp
    rcases List.mem_append.mp hp with hp | hp
    · exact h p hp
    · simp only [List.mem_singleton] at hp
      simp [hp, ha]

lemma storeInv_dictInsert {m : Store} {k : String} {a : Account}
    (h : StoreInv m) (ha : a.account_number = k) : StoreInv (dictInsert m k a) := by
  intro p hp
  unfold dictInsert at hp
  cases hany : m.any (fun p => p.1 = k) with
  | true =>
    rw [hany, if_pos rfl] at hp
    rcases List.mem_map.mp hp with ⟨q, hq, rfl⟩
    by_cases hqk : q.1 = k
    · simp [hqk, ha]
    · simpa [hqk] using h q hq
  | false =>
    rw [hany] at hp
    simp only [Bool.false_eq_true, if_false] at hp
    rcases List.mem_append.mp hp with hp | hp
    · exact h p hp
    · simp only [List.mem_singleton] at hp
      simp [hp, ha]

lemma deposit_balance_nonneg (a : Account) (v : ℚ) (h : 0 ≤ a.balance) :
    0 ≤ (Account.deposit a v).balance := by
  unfold Account.deposit
  split
  · exact add_nonneg h (le_of_lt (by assumption))
  · exact h

lemma withdraw_balance_nonneg (a : Account) (v : ℚ) (h : 0 ≤ a.balance) :
    0 ≤ (Account.withdraw a v).2.balance := by
  unfold Account.withdraw
  split
  · next hc => simpa using hc.2
  · exact h

end Bank

namespace Bank

/-! ## Handler case analysis -/

lemma handlers_err {m : Store} {k : String} {body : ReqBody} {e : ApiError}
    (hfin : body.finiteOrUnparseable)
    (h : specFirstError m k body = some e) :
    App.deposit m k body = (.err e, m) ∧ App.withdraw m k body = (.err e, m) := by
  cases hacct : AccountManager.get_account m k with
  | none =>
    simp [specFirstError, hacct] at h
    subst h
    constructor <;> simp [App.deposit, App.withdraw, hacct]
  | some a =>
    rcases body with _ | amount
    · simp [specFirstError, hacct] at h
      subst h
      constructor <;> simp [App.deposit, App.withdraw, hacct]
    · rcases amount with _ | po
      · simp [specFirstError, hacct] at h
        subst h
        constructor <;> simp [App.deposit, App.withdraw, hacct]
      · rcases po with d | _
        · rcases d with ⟨s, mant, ex⟩ | _ | s2
          · by_cases h0 : finVal s mant ex < 0
            · simp [specFirstError, hacct, h0] at h
              subst h
              constructor <;>
                simp [App.deposit, App.withdraw, hacct, Decimal.ltZero, h0]
            · by_cases h1 : finVal s mant ex = 0
              · simp [specFirstError, hacct, h0, h1] at h
                subst h
                constructor <;>
                  simp [App.deposit, App.withdraw, hacct, Decimal.ltZero,
                    Decimal.eqZero, h0, h1]
              · by_cases h2 : ex < -2
                · simp [specFirstError, hacct, h0, h1, h2] at h
                  subst h
                  constructor <;>
                    simp [App.deposit, App.withdraw, hacct, Decimal.ltZero,
                      Decimal.eqZero, Decimal.exponent, h0, h1, h2]
                · by_cases h3 : MAX_AMOUNT < finVal s mant ex
                  · simp [specFirstError, hacct, h0, h1, h2, h3] at h
                    subst h
                    constructor <;>
                      simp [App.deposit, App.withdraw, hacct, Decimal.ltZero,
                        Decimal.eqZero, Decimal.exponent, Decimal.gtMax,
                        h0, h1, h2, h3]
                  · simp [specFirstError, hacct, h0, h1, h2, h3] at h
          · exact absurd hfin (by simp [ReqBody.finiteOrUnparseable])
          · exact absurd hfin (by simp [ReqBody.finiteOrUnparseable])
        · simp [specFirstError, hacct] at h
          subst h
          constructor <;> simp [App.deposit, App.withdraw, hacct]

lemma spec_none_cases {m : Store} {k : String} {body : ReqBody}
    (h : specFirstError m k body = none) :
    ∃ a s mant ex, AccountManager.get_account m k = some a ∧
      body = .obj (some (.ok (.finite s mant ex))) ∧
      ¬ finVal s mant ex < 0 ∧ finVal s mant ex ≠ 0 ∧ ¬ ex < -2 ∧
      ¬ MAX_AMOUNT < finVal s mant ex := by
  cases hacct : AccountManager.get_account m k with
  | none => simp [specFirstError, hacct] at h
  | some a =>
    rcases body with _ | amount
    · simp [specFirstError, hacct] at h
    · rcases amount with _ | po
      · simp [specFirstError, hacct] at h
      · rcases po with d | _
        · rcases d with ⟨s, mant, ex⟩ | _ | s2
          · by_cases h0 : finVal s mant ex < 0
            · simp [specFirstError, hacct, h0] at h
            · by_cases h1 : finVal s mant ex = 0
              · simp [specFirstError, hacct, h0, h1] at h
              · by_cases h2 : ex < -2
                · simp [specFirstError, hacct, h0, h1, h2] at h
                · by_cases h3 : MAX_AMOUNT < finVal s mant ex
                  · simp [specFirstError, hacct, h0, h1, h2, h3] at h
                  · exact ⟨a, s, mant, ex, rfl, rfl, h0, h1, h2, h3⟩
          · simp [specFirstError, hacct] at h
          · simp [specFirstError, hacct] at h
        · simp [specFirstError, hacct] at h

lemma handlers_pass {m : Store} {k : String} {a : Account} {s : Bool}
    {mant : ℕ} {ex : ℤ}
    (hacct : AccountManager.get_account m k = some a)
    (h0 : ¬ finVal s mant ex < 0) (h1 : finVal s mant ex ≠ 0)
    (h2 : ¬ ex < -2) (h3 : ¬ MAX_AMOUNT < finVal s mant ex) :
    App.deposit m k (.obj (some (.ok (.finite s mant ex)))) =
      (.ok (Account.deposit a (finVal s mant ex)).balance,
        storeUpdate m k (Account.deposit a (finVal s mant ex))) ∧
    (∀ a', Account.withdraw a (finVal s mant ex) = (true, a') →
      App.withdraw m k (.obj (some (.ok (.finite s mant ex)))) =
        (.ok a'.balance, storeUpdate m k a')) ∧
    (∀ a', Account.withdraw a (finVal s mant ex) = (false, a') →
      App.withdraw m k (.obj (some (.ok (.finite s mant ex)))) =
        (.err .insufficientFunds, m)) := by
  refine ⟨?_, ?_, ?_⟩
  · simp [App.deposit, hacct, Decimal.ltZero, Decimal.eqZero, Decimal.exponent,
      Decimal.gtMax, h0, h1, h2, h3, DecVal.val, Account.get_balance]
  · intro a' hw
    simp [App.withdraw, hacct, Decimal.ltZero, Decimal.eqZero, Decimal.exponent,
      Decimal.gtMax, h0, h1, h2, h3, DecVal.val, hw, Account.get_balance]
  · intro a' hw
    simp [App.withdraw, hacct, Decimal.ltZero, Decimal.eqZero, Decimal.exponent,
      Decimal.gtMax, h0, h1, h2, h3, DecVal.val, hw, Account.get_balance]

lemma deposit_store_shape (m : Store) (k : String) (body : ReqBody) :
    (App.deposit m k body).2 = m ∨
      ∃ a v, AccountManager.get_account m k = some a ∧
        (App.deposit m k body).2 = storeUpdate m k (Account.deposit a v) := by
  cases hacct : AccountManager.get_account m k with
  | none => left; simp [App.deposit, hacct]
  | some a =>
    rcases body with _ | amount
    · left; simp [App.deposit, hacct]
    · rcases amount with _ | po
      · left; simp [App.deposit, hacct]
      · rcases po with d | _
        · rcases hlt : Decimal.ltZero d with _ | b
          · left; simp [App.deposit, hacct, hlt]
          · cases b with
            | true => left; simp [App.deposit, hacct, hlt]
            | false =>
              by_cases hz : Decimal.eqZero d
              · left; simp [App.deposit, hacct, hlt, hz]
              · rcases hexp : Decimal.exponent d with _ | ex2
                · left; simp [App.deposit, hacct, hlt, hz, hexp]
                · by_cases he : ex2 < -2
                  · left; simp [App.deposit, hacct, hlt, hz, hexp, he]
                  · rcases hmax : Decimal.gtMax MAX_AMOUNT d with _ | b2
                    · left; simp [App.deposit, hacct, hlt, hz, hexp, he, hmax]
                    · cases b2 with
                      | true => left; simp [App.deposit, hacct, hlt, hz, hexp, he, hmax]
                      | false =>
                        right
                        exact ⟨a, d.val, rfl, by
                          simp [App.deposit, hacct, hlt, hz, hexp, he, hmax]⟩
        · left; simp [App.deposit, hacct]

lemma withdraw_store_shape (m : Store) (k : String) (body : ReqBody) :
    (App.withdraw m k body).2 = m ∨
      ∃ a v a', AccountManager.get_account m k = some a ∧
        Account.withdraw a v = (true, a') ∧
        (App.withdraw m k body).2 = storeUpdate m k a' := by
  cases hacct : AccountManager.get_account m k with
  | none => left; simp [App.withdraw, hacct]
  | some a =>
    rcases body with _ | amount
    · left; simp [App.withdraw, hacct]
    · rcases amount with _ | po
      · left; simp [App.withdraw, hacct]
      · rcases po with d | _
        · rcases hlt : Decimal.ltZero d with _ | b
          · left; simp [App.withdraw, hacct, hlt]
          · cases b with
            | true => left; simp [App.withdraw, hacct, hlt]
            | false =>
              by_cases hz : Decimal.eqZero d
              · left; simp [App.withdraw, hacct, hlt, hz]
              · rcases hexp : Decimal.exponent d with _ | ex2
                · left; simp [App.withdraw, hacct, hlt, hz, hexp]
                · by_cases he : ex2 < -2
                  · left; simp [App.withdraw, hacct, hlt, hz, hexp, he]
                  · rcases hmax : Decimal.gtMax MAX_AMOUNT d with _ | b2
                    · left; simp [App.withdraw, hacct, hlt, hz, hexp, he, hmax]
                    · cases b2 with
                      | true =>
                        left; simp [App.withdraw, hacct, hlt, hz, hexp, he, hmax]
                      | false =>
                        rcases hw : Account.withdraw a d.val with ⟨b3, a''⟩
                        cases b3 with
                        | false =>
                          left
                          simp [App.withdraw, hacct, hlt, hz, hexp, he, hmax, hw]
                        | true =>
                          right
                          exact ⟨a, d.val, a'', rfl, hw, by
                            simp [App.withdraw, hacct, hlt, hz, hexp, he, hmax, hw]⟩
        · left; simp [App.withdraw, hacct]

end Bank

namespace Bank

/-! ## Claim theorems -/

/-- Claim C4: for every account and amount `a`, if `a > 0` then `deposit(a)`
adds `a` to the balance; if `a ≤ 0` it changes nothing, and the domain layer
signals no error (the operation's only effect is the returned account state). -/
theorem deposit_spec (a : Account) (amt : ℚ) :
    (0 < amt → Account.deposit a amt = { a with balance := a.balance + amt }) ∧
    (amt ≤ 0 → Account.deposit a amt = a) := by
  constructor
  · intro h
    simp [Account.deposit, h]
  · intro h
    simp [Account.deposit, not_lt.mpr h]

/-- Witness for `deposit_spec` at concrete inputs: depositing 2 into a balance
of 5 gives 7; depositing -1 leaves the account unchanged. -/
theorem deposit_spec_witness :
    Account.deposit ⟨"1", 5⟩ 2 = ⟨"1", 7⟩ ∧
    Account.deposit ⟨"1", 5⟩ (-1) = ⟨"1", 5⟩ := by
  constructor
  · exact ((deposit_spec ⟨"1", 5⟩ 2).1 (by norm_num)).trans (by norm_num)
  · exact (deposit_spec ⟨"1", 5⟩ (-1)).2 (by norm_num)

/-- Claim C6 (amended): a supplied *non-empty* id is used verbatim; when the
id is absent the generated id is the string form of the random draw; a
supplied *empty* id also falls through to the random branch (Python
truthiness of the empty string), contrary to the claim's "including the
empty string". -/
theorem account_id_spec :
    (∀ (s : String) (r : ℕ) (b : ℚ), s ≠ "" →
        (Account.init (some s) r b).account_number = s) ∧
    (∀ (r : ℕ) (b : ℚ), (Account.init none r b).account_number = toString r) ∧
    (∀ (r : ℕ) (b : ℚ), (Account.init (some "") r b).account_number = toString r) := by
  refine ⟨?_, ?_, ?_⟩ <;> intros <;> simp [Account.init, *]

/-- Counterexample to claim C6 as stated: supplying the empty string as id
does not store it verbatim — with random draw 1234 the account's id is
"1234", not "". -/
theorem empty_id_cex :
    (Account.init (some "") 1234 0).account_number = "1234" ∧ "1234" ≠ "" := by
  exact ⟨rfl, by decide⟩

/-- Witness for `account_id_spec` at concrete inputs. -/
theorem account_id_spec_witness :
    (Account.init (some "acct-1") 5 3).account_number = "acct-1" ∧
    (Account.init none 4321 0).account_number = "4321" := by
  constructor
  · exact account_id_spec.1 "acct-1" 5 3 (by decide)
  · exact (account_id_spec.2.1 4321 0).trans rfl

/-- Claim C2: `withdraw(a)` subtracts and returns true exactly when
`0 < a ≤ balance`; otherwise (`a ≤ 0` or `a > balance`) it returns false and
leaves the balance unchanged; and the API layer reports a post-validation
false result as InsufficientFunds with the store unchanged. -/
theorem withdraw_spec :
    (∀ (a : Account) (amt : ℚ), 0 < amt → amt ≤ a.balance →
        Account.withdraw a amt = (true, { a with balance := a.balance - amt })) ∧
    (∀ (a : Account) (amt : ℚ), amt ≤ 0 ∨ a.balance < amt →
        Account.withdraw a amt = (false, a)) ∧
    (∀ (m : Store) (k : String) (a : Account) (s : Bool) (mant : ℕ) (ex : ℤ),
        AccountManager.get_account m k = some a →
        ¬ finVal s mant ex < 0 → finVal s mant ex ≠ 0 → ¬ ex < -2 →
        ¬ MAX_AMOUNT < finVal s mant ex → a.balance < finVal s mant ex →
        App.withdraw m k (.obj (some (.ok (.finite s mant ex)))) =
          (.err .insufficientFunds, m)) := by
  refine ⟨?_, ?_, ?_⟩
  · intro a amt h1 h2
    simp [Account.withdraw, h1, h2]
  · intro a amt h
    have hne : ¬ (0 < amt ∧ amt ≤ a.balance) := by
      rcases h with h | h
      · exact fun hc => absurd hc.1 (not_lt.mpr h)
      · exact fun hc => absurd hc.2 (not_le.mpr h)
    simp [Account.withdraw, hne]
  · intro m k a s mant ex hacct h0 h1 h2 h3 hbal
    have hne : ¬ (0 < finVal s mant ex ∧ finVal s mant ex ≤ a.balance) :=
      fun hc => absurd hc.2 (not_le.mpr hbal)
    have hw : Account.withdraw a (finVal s mant ex) = (false, a) := by
      simp [Account.withdraw, hne]
    exact (handlers_pass hacct h0 h1 h2 h3).2.2 a hw

/-- Witness for `withdraw_spec` at concrete inputs: withdrawing 3 from 10
succeeds leaving 7; withdrawing 11 from 10 fails unchanged; a validated
request for 99 against balance 10 is answered InsufficientFunds. -/
theorem withdraw_spec_witness :
    Account.withdraw ⟨"1", 10⟩ 3 = (true, ⟨"1", 7⟩) ∧
    Account.withdraw ⟨"1", 10⟩ 11 = (false, ⟨"1", 10⟩) ∧
    App.withdraw [("1", ⟨"1", 10⟩)] "1" (.obj (some (.ok (.finite false 99 0)))) =
      (.err .insufficientFunds, [("1", ⟨"1", 10⟩)]) := by
  refine ⟨?_, ?_, ?_⟩
  · exact (withdraw_spec.1 ⟨"1", 10⟩ 3 (by norm_num) (by norm_num)).trans (by norm_num)
  · exact withdraw_spec.2.1 ⟨"1", 10⟩ 11 (Or.inr (by norm_num))
  · refine withdraw_spec.2.2 _ "1" ⟨"1", 10⟩ false 99 0 ?_ ?_ ?_ ?_ ?_ ?_
    · simp [AccountManager.get_account]
    · norm_num [finVal]
    · norm_num [finVal]
    · norm_num
    · norm_num [finVal, MAX_AMOUNT]
    · norm_num [finVal]

/-- Claim C8: in every store satisfying the key-id invariant, the invariant
is preserved by `create_account`, and `get_account` (which does not mutate
the store: it is a pure lookup in this embedding) only returns accounts whose
id equals the requested key. -/
theorem store_key_invariant (m : Store) (hm : StoreInv m) :
    (∀ (r : ℕ) (b : ℚ), StoreInv (AccountManager.create_account m r b).2) ∧
    (∀ (k : String) (a : Account),
        AccountManager.get_account m k = some a → a.account_number = k) := by
  constructor
  · intro r b
    simp only [AccountManager.create_account]
    exact storeInv_dictInsert hm rfl
  · intro k a h
    simpa using hm _ (get_account_mem h)

/-- Witness for `store_key_invariant`: creating an account in a concrete
one-entry store preserves the key-id invariant. -/
theorem store_key_invariant_witness :
    StoreInv ((AccountManager.create_account [("7", ⟨"7", 3⟩)] 1234 5).2) := by
  have hm : StoreInv [("7", (⟨"7", 3⟩ : Account))] := by
    intro p hp
    simp only [List.mem_singleton] at hp
    subst hp
    rfl
  exact (store_key_invariant _ hm).1 1234 5

/-- Claim C9: the create endpoint performs no validation of the initial
balance — any JSON object body stores the balance field verbatim (including
negative values, covered by the universal quantifier over `b`), defaults an
absent field to 0, echoes the account back with 201 (`Response.created`),
and its only failure is a missing/invalid JSON payload. -/
theorem create_no_validation (m : Store) (r : ℕ) :
    (∀ b : ℚ, App.create_account m (.obj (some b)) r =
        (.created (toString r) b,
          dictInsert m (toString r) { account_number := toString r, balance := b })) ∧
    (App.create_account m (.obj none) r =
        (.created (toString r) 0,
          dictInsert m (toString r) { account_number := toString r, balance := 0 })) ∧
    (App.create_account m .noJson r = (.err .malformedRequest, m)) := by
  refine ⟨?_, ?_, ?_⟩ <;>
    simp [App.create_account, AccountManager.create_account, Account.init]

/-- Claim C10: immediately after `create_account`, looking up the created
account's id returns exactly that account, for every prior store (collisions
included, since dict insertion overwrites). -/
theorem create_get_roundtrip (m : Store) (r : ℕ) (b : ℚ) :
    AccountManager.get_account (AccountManager.create_account m r b).2
      (AccountManager.create_account m r b).1.account_number =
      some (AccountManager.create_account m r b).1 := by
  simp only [AccountManager.create_account]
  exact get_account_dictInsert m _ _

end Bank

namespace Bank

/-- Claim C7: boundary behaviour on an existing account with sufficient
funds: 0.00 is rejected as ZeroAmount, 0.001 as TooManyDecimalPlaces,
100000000 as AmountTooLarge, and 99999999 is accepted by both deposit and
withdraw; the scale check is on the exact representation, not the value:
1.100 (exponent -3) is rejected even though its value equals 1.10
(exponent -2), which is accepted. -/
theorem amount_boundaries :
    (App.deposit [("42", ⟨"42", 100000000⟩)] "42"
        (.obj (some (.ok (.finite false 0 (-2)))))).1 = .err .zeroAmount ∧
    (App.withdraw [("42", ⟨"42", 100000000⟩)] "42"
        (.obj (some (.ok (.finite false 0 (-2)))))).1 = .err .zeroAmount ∧
    (App.deposit [("42", ⟨"42", 100000000⟩)] "42"
        (.obj (some (.ok (.finite false 1 (-3)))))).1 = .err .tooManyDecimalPlaces ∧
    (App.withdraw [("42", ⟨"42", 100000000⟩)] "42"
        (.obj (some (.ok (.finite false 1 (-3)))))).1 = .err .tooManyDecimalPlaces ∧
    (App.deposit [("42", ⟨"42", 100000000⟩)] "42"
        (.obj (some (.ok (.finite false 100000000 0))))).1 = .err .amountTooLarge ∧
    (App.withdraw [("42", ⟨"42", 100000000⟩)] "42"
        (.obj (some (.ok (.finite false 100000000 0))))).1 = .err .amountTooLarge ∧
    App.deposit [("42", ⟨"42", 100000000⟩)] "42"
        (.obj (some (.ok (.finite false 99999999 0)))) =
      (.ok 199999999, [("42", ⟨"42", 199999999⟩)]) ∧
    App.withdraw [("42", ⟨"42", 100000000⟩)] "42"
        (.obj (some (.ok (.finite false 99999999 0)))) =
      (.ok 1, [("42", ⟨"42", 1⟩)]) ∧
    finVal false 1100 (-3) = finVal false 110 (-2) ∧
    (App.deposit [("42", ⟨"42", 100000000⟩)] "42"
        (.obj (some (.ok (.finite false 1100 (-3)))))).1 = .err .tooManyDecimalPlaces ∧
    (App.deposit [("42", ⟨"42", 100000000⟩)] "42"
        (.obj (some (.ok (.finite false 110 (-2)))))).1 = .ok (1000000011 / 10) := by
  refine ⟨?_, ?_, ?_, ?_, ?_, ?_, ?_, ?_, ?_, ?_, ?_⟩ <;>
    norm_num [App.deposit, App.withdraw, AccountManager.get_account,
      Decimal.ltZero, Decimal.eqZero, Decimal.exponent, Decimal.gtMax,
      finVal, DecVal.val, MAX_AMOUNT, Account.deposit, Account.withdraw,
      Account.get_balance, storeUpdate]

/-- Claim C1 (amended): non-negativity of every stored balance is an
invariant of the deposit and withdraw handlers for every request, and of
account creation *provided the supplied initial balance is non-negative*;
the create endpoint itself does not enforce this (see
`create_negative_balance_cex`). -/
theorem balance_nonneg_invariant (m : Store) (hm : StoreNonneg m) :
    (∀ (cbody : CreateBody) (r : ℕ),
        (∀ b, cbody = CreateBody.obj (some b) → 0 ≤ b) →
        StoreNonneg (App.create_account m cbody r).2) ∧
    (∀ (k : String) (body : ReqBody), StoreNonneg (App.deposit m k body).2) ∧
    (∀ (k : String) (body : ReqBody), StoreNonneg (App.withdraw m k body).2) := by
  refine ⟨?_, ?_, ?_⟩
  · intro cbody r hb
    rcases cbody with _ | bf
    · simpa [App.create_account] using hm
    · have heq : (App.create_account m (.obj bf) r).2 =
          dictInsert m (toString r)
            { account_number := toString r, balance := bf.getD 0 } := by
        simp [App.create_account, AccountManager.create_account, Account.init]
      rw [heq]
      refine storeNonneg_dictInsert hm ?_
      rcases bf with _ | b
      · norm_num
      · exact hb b rfl
  · intro k body
    rcases deposit_store_shape m k body with h | ⟨a, v, hacct, h⟩
    · rw [h]; exact hm
    · rw [h]
      exact StoreNonneg.update hm
        (deposit_balance_nonneg a v (hm _ (get_account_mem hacct)))
  · intro k body
    rcases withdraw_store_shape m k body with h | ⟨a, v, a', hacct, hw, h⟩
    · rw [h]; exact hm
    · rw [h]
      have ha : 0 ≤ a.balance := hm _ (get_account_mem hacct)
      have ha' : 0 ≤ a'.balance := by
        have hnn := withdraw_balance_nonneg a v ha
        rw [hw] at hnn
        exact hnn
      exact StoreNonneg.update hm ha'

/-- Counterexample to claim C1 as stated: the create endpoint accepts a
well-formed JSON body with balance -5 and the resulting store holds an
account with a negative balance. -/
theorem create_negative_balance_cex :
    (App.create_account [] (.obj (some (-5))) 1234).2 =
      [("1234", { account_number := "1234", balance := -5 })] ∧
    ¬ StoreNonneg [("1234", { account_number := "1234", balance := -5 })] := by
  constructor
  · rfl
  · intro hsn
    have h5 := hsn ("1234", ⟨"1234", -5⟩) (by simp)
    norm_num at h5

/-- Witness for `balance_nonneg_invariant`: a deposit of 5 on a concrete
non-negative store keeps every balance non-negative. -/
theorem balance_nonneg_invariant_witness :
    StoreNonneg (App.deposit [("3", ⟨"3", 2⟩)] "3"
      (.obj (some (.ok (.finite false 5 0))))).2 := by
  have hm : StoreNonneg [("3", (⟨"3", 2⟩ : Account))] := by
    intro p hp
    simp only [List.mem_singleton] at hp
    subst hp
    norm_num
  exact (balance_nonneg_invariant _ hm).2.1 "3" _

/-- Claim C3 (amended): for every request whose amount field is absent,
unparseable, or parses to a *finite* decimal, both handlers return exactly
the first failing check's error from the spec's ordered list
(`specFirstError`), leaving the store unchanged, and reach the domain
deposit / withdraw only when every check passes; amounts parsing to NaN or
Infinity instead raise an uncaught exception (see `validation_nan_cex`). -/
theorem validation_order_spec (m : Store) (k : String) (body : ReqBody)
    (hfin : body.finiteOrUnparseable) :
    (∀ e, specFirstError m k body = some e →
        App.deposit m k body = (.err e, m) ∧ App.withdraw m k body = (.err e, m)) ∧
    (specFirstError m k body = none →
        ∃ a d, AccountManager.get_account m k = some a ∧
          body = .obj (some (.ok d)) ∧
          App.deposit m k body =
            (.ok (Account.deposit a d.val).balance,
              storeUpdate m k (Account.deposit a d.val)) ∧
          (∀ a', Account.withdraw a d.val = (true, a') →
            App.withdraw m k body = (.ok a'.balance, storeUpdate m k a')) ∧
          (∀ a', Account.withdraw a d.val = (false, a') →
            App.withdraw m k body = (.err .insufficientFunds, m))) := by
  constructor
  · intro e h
    exact handlers_err hfin h
  · intro h
    rcases spec_none_cases h with ⟨a, s, mant, ex, hacct, rfl, h0, h1, h2, h3⟩
    exact ⟨a, .finite s mant ex, hacct, rfl,
      (handlers_pass hacct h0 h1 h2 h3).1,
      (handlers_pass hacct h0 h1 h2 h3).2.1,
      (handlers_pass hacct h0 h1 h2 h3).2.2⟩

/-- Counterexample to claim C3 as stated: with amount "NaN" (which
`Decimal` parses successfully), the deposit handler returns no taxonomy
error at all — the `d < 0` comparison signals InvalidOperation, which
escapes the handler. -/
theorem validation_nan_cex :
    App.deposit [("9", ⟨"9", 1⟩)] "9" (.obj (some (.ok .nan))) =
      (.raised .invalidOperation, [("9", ⟨"9", 1⟩)]) := by
  norm_num [App.deposit, AccountManager.get_account, Decimal.ltZero]

/-- Witness for `validation_order_spec`: a request lacking the amount field
is answered with MissingAmount, the first failing check. -/
theorem validation_order_spec_witness :
    App.deposit [("2", ⟨"2", 1⟩)] "2" (.obj none) =
      (.err .missingAmount, [("2", ⟨"2", 1⟩)]) := by
  have h := (validation_order_spec [("2", ⟨"2", 1⟩)] "2" (.obj none)
      (by trivial)).1 .missingAmount
      (by norm_num [specFirstError, AccountManager.get_account])
  exact h.1

/-- Claim C5 (amended): for every request whose amount field is absent,
unparseable, or parses to a finite decimal, both handlers terminate with a
success response or a taxonomy error carried by a 4xx status; amounts
parsing to NaN or Infinity instead raise an exception that escapes the
handler (see `withdraw_infinity_cex`). -/
theorem handlers_no_uncaught (m : Store) (k : String) (body : ReqBody)
    (hfin : body.finiteOrUnparseable) :
    Response.ok4xx (App.deposit m k body).1 ∧
    Response.ok4xx (App.withdraw m k body).1 := by
  cases hspec : specFirstError m k body with
  | some e =>
    obtain ⟨hd, hw⟩ := handlers_err hfin hspec
    have he : 400 ≤ httpStatus e ∧ httpStatus e < 500 := by
      cases e <;> simp [httpStatus]
    constructor
    · right; exact ⟨e, by rw [hd], he.1, he.2⟩
    · right; exact ⟨e, by rw [hw], he.1, he.2⟩
  | none =>
    rcases spec_none_cases hspec with ⟨a, s, mant, ex, hacct, rfl, h0, h1, h2, h3⟩
    obtain ⟨hd, hwt, hwf⟩ := handlers_pass hacct h0 h1 h2 h3
    constructor
    · left
      exact ⟨_, by rw [hd]⟩
    · rcases hw : Account.withdraw a (finVal s mant ex) with ⟨b3, a'⟩
      cases b3 with
      | true =>
        left
        exact ⟨a'.balance, by rw [hwt a' hw]⟩
      | false =>
        right
        exact ⟨.insufficientFunds, by rw [hwf a' hw],
          by norm_num [httpStatus], by norm_num [httpStatus]⟩

/-- Counterexample to claim C5 as stated: with amount "Infinity" the
withdraw handler neither succeeds nor returns a taxonomy error — the
`as_tuple().exponent` check raises TypeError, which escapes the handler. -/
theorem withdraw_infinity_cex :
    App.withdraw [("7", ⟨"7", 5⟩)] "7" (.obj (some (.ok (.inf false)))) =
      (.raised .typeError, [("7", ⟨"7", 5⟩)]) ∧
    ¬ Response.ok4xx (.raised .typeError) := by
  constructor
  · norm_num [App.withdraw, AccountManager.get_account, Decimal.ltZero,
      Decimal.eqZero, Decimal.exponent]
  · intro h
    rcases h with ⟨b, hb⟩ | ⟨e, he, _⟩
    · exact absurd hb (by simp)
    · exact absurd he (by simp)

/-- Witness for `handlers_no_uncaught`: a deposit of 2.5 on a concrete store
yields a success-or-4xx outcome. -/
theorem handlers_no_uncaught_witness :
    Response.ok4xx (App.deposit [("4", ⟨"4", 1⟩)] "4"
      (.obj (some (.ok (.finite false 25 (-1)))))).1 := by
  exact (handlers_no_uncaught [("4", ⟨"4", 1⟩)] "4" _ (by trivial)).1

end Bank
